import Mathlib

/-!
Verification of the templatex template-composition and render-caching engine.

The development shallowly embeds the core of the Go package `templatex`:
the render-cache key construction (`generateCacheKey`), the layout-chain
resolver (`getLayoutChain`), the render pipeline (`Engine.Render`) and the
constructor (`New`).  Compiled templates are modelled as opaque executable
units (a function from the per-call function environment and the binding
value to either an error or the produced text), exactly as the spec treats
them ("an opaque black box supplied by a collaborating template-compilation
facility").
-/

namespace Templatex

/-- Model of a Go `interface{}` binding value, by the shape categories that
`generateCacheKey`'s type switch distinguishes: `nil`, `string`, `[]byte`,
`fmt.Stringer` (carrying the result of its `String()` method),
struct/map/slice/array values (carrying the bytes their gob encoding
produces; encoding errors are ignored by the source, which uses whatever
bytes were written), and all other values (carrying their `fmt.Sprintf "%v"`
textual representation). -/
inductive GoVal where
  | nil : GoVal
  | str : String → GoVal
  | bytes : List Nat → GoVal
  | stringer : String → GoVal
  | structured : List Nat → GoVal
  | other : String → GoVal
deriving DecidableEq, Repr

/-- UTF-8 encoding of a character, as Go's `[]byte(string)` conversion
produces it. -/
def utf8Bytes (c : Char) : List Nat :=
  let n := c.toNat
  if n < 0x80 then [n]
  else if n < 0x800 then [0xC0 + n / 64, 0x80 + n % 64]
  else if n < 0x10000 then [0xE0 + n / 4096, 0x80 + (n / 64) % 64, 0x80 + n % 64]
  else [0xF0 + n / 262144, 0x80 + (n / 4096) % 64, 0x80 + (n / 64) % 64, 0x80 + n % 64]

/-- The UTF-8 bytes of a string (Go's `[]byte(s)`). -/
def strBytes (s : String) : List Nat :=
  s.data.foldr (fun c acc => utf8Bytes c ++ acc) []

/-- FNV-1a 64-bit offset basis (Go `hash/fnv`, `fnv.New64a()`). -/
def fnvOffsetBasis : Nat := 14695981039346656037

/-- FNV-1a 64-bit prime. -/
def fnvPrime : Nat := 1099511628211

/-- One FNV-1a step: xor in the byte, multiply by the prime modulo 2^64. -/
def fnvStep (h b : Nat) : Nat := (Nat.xor h (b % 256)) * fnvPrime % 2 ^ 64

/-- Feed a byte sequence into an FNV-1a 64 state (Go `h.Write(bs)`). -/
def fnvFold (h : Nat) (bs : List Nat) : Nat := bs.foldl fnvStep h

/-- Lowercase hexadecimal digit. -/
def hexDigit (n : Nat) : Char :=
  if n < 10 then Char.ofNat (48 + n) else Char.ofNat (87 + n)

/-- Fuelled accumulator loop producing the hex digits of `n` (most
significant first); 17 units of fuel cover any 64-bit value. -/
def toHexAux : Nat → Nat → List Char → List Char
  | 0, _, acc => acc
  | fuel + 1, n, acc =>
      if n = 0 then acc else toHexAux fuel (n / 16) (hexDigit (n % 16) :: acc)

/-- Go's `fmt.Sprintf "%x"` on a `uint64`: lowercase hex, no padding. -/
def toHex (n : Nat) : String :=
  if n = 0 then "0" else ⟨toHexAux 17 n []⟩

/-- The bytes that `generateCacheKey` writes into the hash for a non-nil
binding, one case per arm of the source's type switch. -/
def bindingBytes : GoVal → List Nat
  | .nil => []
  | .str s => strBytes s
  | .bytes bs => bs.map (· % 256)
  | .stringer s => strBytes s
  | .structured enc => enc.map (· % 256)
  | .other r => strBytes r

/-- Embeds `generateCacheKey` (template.go): hard-cache mode keys by
locale, template name and layout names only; soft mode additionally folds
the binding's bytes into an FNV-1a 64 hash and renders it in hex. -/
def generateCacheKey (hardCache : Bool) (locale name : String) (binding : GoVal)
    (layouts : List String) : String :=
  let baseKey := locale ++ ":" ++ name ++ ":"
  if hardCache then
    baseKey ++ ":" ++ String.intercalate ":" layouts
  else
    let h0 := fnvFold fnvOffsetBasis (strBytes baseKey)
    let h1 := if 0 < layouts.length then
        fnvFold h0 (strBytes (String.intercalate ":" layouts))
      else h0
    let h2 := if binding = GoVal.nil then h1 else fnvFold h1 (bindingBytes binding)
    toHex h2

/-- The per-call function environment a compiled template executes under:
the value returned by the zero-argument `embed` function, the translator
`T`, and the context-value accessor `ctxVal`.  These are the three
context-related entries of `defaultFuncs` (functions.go) that the render
pipeline rebinds; the remaining utility functions are execution-internal
to the opaque compiled templates. -/
structure FuncEnv where
  embed : String
  T : String → List String → String
  ctxVal : String → String

/-- A compiled template: an opaque executable unit (the spec's "Compiled
Template") taking the function environment and the binding value to either
an execution error or the produced text.  Go's
`executeTemplateWithFuncs(tmpl, buf, data, fns)` (clone, add `fns`,
execute) is `tmpl.exec env data` here. -/
structure Tmpl where
  exec : FuncEnv → GoVal → Except String String

/-- The per-request context, modelling what the pipeline extracts from a
Go `context.Context`: the optional i18n locale code (`ctxi18n.Locale`) and
the two collaborator-supplied functions `getTranslator ctx` and
`ctxValue ctx`. -/
structure Ctx where
  locale : Option String
  T : String → List String → String
  ctxVal : String → String

/-- The locale the pipeline uses: `"en"` unless the context carries one
(template.go: `locale := "en"; if l := ctxi18n.Locale(ctx); l != nil ...`). -/
def localeOf (ctx : Ctx) : String := ctx.locale.getD "en"

/-- The three context-related placeholder functions that `defaultFuncs`
(functions.go) installs at parse time: `embed` returns the empty string,
`T` returns its key, `ctxVal` returns the empty string. -/
def defaultFuncs : FuncEnv :=
  { embed := "", T := fun key _ => key, ctxVal := fun _ => "" }

/-- The environment of a base-template execution (template.go, `Render`):
only `T` and `ctxVal` are overridden with the context-specific functions;
`embed` keeps its parse-time `defaultFuncs` placeholder. -/
def baseEnv (ctx : Ctx) : FuncEnv :=
  { defaultFuncs with T := ctx.T, ctxVal := ctx.ctxVal }

/-- The template registry: logical name to compiled template, immutable
after construction (`e.templates`, with `Lookup`). -/
abbrev Registry := List (String × Tmpl)

/-- First-match association-list lookup (Go map lookup / `sync.Map.Load` /
`Template.Lookup` by name). -/
def lookupAssoc {α : Type} : List (String × α) → String → Option α
  | [], _ => none
  | (k', v) :: rest, k => if k' = k then some v else lookupAssoc rest k

/-- `sync.Map.Store`: the new entry shadows any older one under the same
key (observationally a replace for first-match lookup). -/
def storeAssoc {α : Type} (l : List (String × α)) (k : String) (v : α) :
    List (String × α) :=
  (k, v) :: l

/-- The engine state the render pipeline reads and writes: the parsed
registry (`none` models a zero-value engine whose `templates` field is
nil), the hard-cache flag, the render cache and the layout-chain cache.
The remaining Engine fields of the source (`funcMap`, `exts`,
`commonLayouts`, the pre-compiled `layouts` map — which `Render` and
`getLayoutChain` never read — and the mutex) do not affect the embedded
operations. -/
structure Engine where
  templates : Option Registry
  hardCache : Bool
  cache : List (String × String)
  layoutCache : List (String × List Tmpl)

/-- The in-order resolution loop of `getLayoutChain`: look every layout
name up in the registry, aborting at the first missing name (returned as
the error). -/
def resolveChain (reg : Registry) : List String → Except String (List Tmpl)
  | [] => .ok []
  | l :: rest =>
    match lookupAssoc reg l with
    | none => .error l
    | some t =>
      match resolveChain reg rest with
      | .error m => .error m
      | .ok ts => .ok (t :: ts)

/-- Embeds `getLayoutChain` (template.go): empty request gives the empty
chain; otherwise probe the chain cache under the colon-joined names, on a
miss resolve every name in order (first failure aborts with that name and
stores nothing) and store the fully resolved chain.  Returns the chain and
the updated chain cache. -/
def getLayoutChain (reg : Registry) (lc : List (String × List Tmpl))
    (layouts : List String) : Except String (List Tmpl × List (String × List Tmpl)) :=
  if layouts.isEmpty then .ok ([], lc)
  else
    let cacheKey := String.intercalate ":" layouts
    match lookupAssoc lc cacheKey with
    | some chain => .ok (chain, lc)
    | none =>
      match resolveChain reg layouts with
      | .error l => .error l
      | .ok chain => .ok (chain, storeAssoc lc cacheKey chain)

/-- The sequential wrapping loop of `Render`: each layout executes with
`embed` rebound to the previous step's output (and the same context
functions and binding); its output feeds the next layout. -/
def wrapChain (env : FuncEnv) (binding : GoVal) :
    List Tmpl → String → Except String String
  | [], content => .ok content
  | t :: rest, content =>
    match t.exec { env with embed := content } binding with
    | .error m => .error m
    | .ok out => wrapChain env binding rest out

/-- The render-scoped error taxonomy of `Render`. -/
inductive RenderErr where
  | notInitialized : RenderErr
  | templateNotFound : String → RenderErr
  | executionFailed : String → RenderErr
  | layoutNotFound : String → RenderErr
deriving DecidableEq, Repr

/-- Result of one `Render` call: the engine afterwards (caches possibly
updated), the bytes written to the caller's output sink, and the error if
any. -/
structure RResult where
  eng : Engine
  out : String
  err : Option RenderErr

/-- Embeds `Render` (template.go): uninitialized guard, locale extraction,
cache-key computation and cache probe (a hit writes the cached content),
base-template lookup and execution into a scoped buffer with only `T` and
`ctxVal` overridden, layout-chain resolution, sequential wrapping with a
rebound `embed` per step, cache commit of the final content, and the final
write to the sink. -/
def Engine.Render (e : Engine) (ctx : Ctx) (name : String) (binding : GoVal)
    (layouts : List String) : RResult :=
  match e.templates with
  | none => ⟨e, "", some .notInitialized⟩
  | some reg =>
    let cacheKey := generateCacheKey e.hardCache (localeOf ctx) name binding layouts
    match lookupAssoc e.cache cacheKey with
    | some cached => ⟨e, cached, none⟩
    | none =>
      match lookupAssoc reg name with
      | none => ⟨e, "", some (.templateNotFound name)⟩
      | some baseTmpl =>
        match baseTmpl.exec (baseEnv ctx) binding with
        | .error m => ⟨e, "", some (.executionFailed m)⟩
        | .ok baseOut =>
          match getLayoutChain reg e.layoutCache layouts with
          | .error l => ⟨e, "", some (.layoutNotFound l)⟩
          | .ok (chain, lc') =>
            match wrapChain (baseEnv ctx) binding chain baseOut with
            | .error m => ⟨{ e with layoutCache := lc' }, "", some (.executionFailed m)⟩
            | .ok content =>
              ⟨{ e with layoutCache := lc', cache := storeAssoc e.cache cacheKey content },
                content, none⟩

/-- A Go method call through a possibly nil `*Engine` receiver: the nil
handle (`none`) takes the same not-initialized exit as an engine with a
nil `templates` field, because `Render`'s first guard is
`e == nil || e.templates == nil`. -/
def renderHandle (h : Option Engine) (ctx : Ctx) (name : String)
    (binding : GoVal) (layouts : List String) : String × Option RenderErr :=
  match h with
  | none => ("", some .notInitialized)
  | some e => ((e.Render ctx name binding layouts).out, (e.Render ctx name binding layouts).err)

/-- Construction-time error taxonomy of `New`. -/
inductive NewErr where
  | noTemplateDirectory : NewErr
  | templateParsingFailed : String → NewErr
  | noTemplatesParsed : NewErr
deriving DecidableEq, Repr

/-- A Go slice value together with its nil-ness: Go distinguishes the nil
slice from allocated (possibly empty) slices, and `New` compares the
result of `Templates()` against nil. -/
structure GoSlice (α : Type) where
  isNil : Bool
  elems : List α

/-- Embeds the `html/template` collaborator's `Templates()` method: it
builds its result with `make` from the namespace set, so the returned
slice is never the nil slice (and the set always holds at least the root
template that `template.New("")` registered into it). -/
def templatesMethod (set : Registry) : GoSlice Tmpl :=
  { isNil := false, elems := set.map Prod.snd }

/-- The root template that `template.New("")` creates and registers in the
namespace set; executing it before any content is parsed fails with
`html/template`'s incomplete-or-empty error. -/
def rootTmpl : Tmpl :=
  { exec := fun _ _ => .error "incomplete or empty template" }

/-- Embeds `New` (template.go): empty-root and missing-directory
validation, option application (the hard-cache flag), the directory walk
(a collaborator producing either a parse failure or the parsed
registrations, which shadow the pre-registered root template), the
`tmpl.Templates() == nil` check, and engine assembly with empty caches. -/
def New (root : String) (dirExists : Bool) (walkResult : Except String Registry)
    (hardCache : Bool) : Except NewErr Engine :=
  if root = "" then .error .noTemplateDirectory
  else if !dirExists then .error .noTemplateDirectory
  else
    match walkResult with
    | .error m => .error (.templateParsingFailed m)
    | .ok parsed =>
      let set : Registry := parsed ++ [("", rootTmpl)]
      if (templatesMethod set).isNil then .error .noTemplatesParsed
      else .ok { templates := some set, hardCache := hardCache, cache := [], layoutCache := [] }

/-- A compiled template whose execution always produces `s` (content not
depending on the binding). -/
def okTmpl (s : String) : Tmpl := { exec := fun _ _ => .ok s }

/-- A compiled template whose execution always fails with message `m`
(e.g. a template whose pipeline rejects the binding). -/
def failTmpl (m : String) : Tmpl := { exec := fun _ _ => .error m }

/-- A content or layout template that invokes the `embed` function between
two literal fragments. -/
def embedTmpl (pre post : String) : Tmpl :=
  { exec := fun env _ => .ok (pre ++ env.embed ++ post) }

/-- A template that renders its binding's textual payload (`{{.}}`-like). -/
def bindTmpl : Tmpl :=
  { exec := fun _ b =>
      match b with
      | .str s => .ok s
      | .stringer s => .ok ("stringer " ++ s)
      | _ => .ok "other" }

/-- A request context carrying no locale and trivial collaborator
functions. -/
def ctx0 : Ctx := { locale := none, T := fun key _ => key, ctxVal := fun _ => "" }

/-- A small registry of concrete compiled templates used to evaluate the
pipeline: a static content template, two embedding layouts, a failing
template, a binding-sensitive content template and an embed-invoking
content template. -/
def regW : Registry :=
  [("t", okTmpl "X"), ("lay", embedTmpl "<" ">"), ("lay2", embedTmpl "(" ")"),
   ("bad", failTmpl "boom"), ("bt", bindTmpl), ("emb", embedTmpl "[" "]")]

/-- A freshly constructed soft-cache engine over `regW`. -/
def engW : Engine := { templates := some regW, hardCache := false, cache := [], layoutCache := [] }

/-- A freshly constructed hard-cache engine over `regW`. -/
def engHard : Engine := { templates := some regW, hardCache := true, cache := [], layoutCache := [] }

/-- An engine whose layout `lay` resolves but fails at execution. -/
def engFailLayout : Engine :=
  { templates := some [("base", okTmpl "B"), ("lay", failTmpl "boom")],
    hardCache := false, cache := [], layoutCache := [] }

theorem lookupAssoc_store_self {α : Type} (l : List (String × α)) (k : String) (v : α) :
    lookupAssoc (storeAssoc l k v) k = some v := by
  simp [storeAssoc, lookupAssoc]

theorem lookupAssoc_store_ne {α : Type} (l : List (String × α)) (k k' : String) (v : α)
    (h : k ≠ k') : lookupAssoc (storeAssoc l k v) k' = lookupAssoc l k' := by
  simp [storeAssoc, lookupAssoc, h]

/-- Chain resolution is stable: re-requesting a chain against the chain
cache a successful resolution produced returns the same chain and leaves
the cache as it is. -/
theorem getLayoutChain_idem (reg : Registry) (lc lc' : List (String × List Tmpl))
    (ls : List String) (ch : List Tmpl)
    (h : getLayoutChain reg lc ls = .ok (ch, lc')) :
    getLayoutChain reg lc' ls = .ok (ch, lc') := by
  unfold getLayoutChain at h ⊢
  by_cases hls : ls.isEmpty
  · simp only [hls, if_true] at h ⊢
    cases h
    rfl
  · simp only [hls, if_false] at h ⊢
    cases hcc : lookupAssoc lc (String.intercalate ":" ls) with
    | some chain =>
        rw [hcc] at h
        cases h
        rw [hcc]
        rfl
    | none =>
        rw [hcc] at h
        cases hres : resolveChain reg ls with
        | error m => rw [hres] at h; cases h
        | ok chain =>
            rw [hres] at h
            cases h
            rw [lookupAssoc_store_self]
            rfl

/-- `Render` on a nil or registry-less engine: the dedicated
not-initialized error, engine untouched, nothing written. -/
theorem render_notInit (e : Engine) (ctx : Ctx) (n : String) (b : GoVal)
    (ls : List String) (h : e.templates = none) :
    e.Render ctx n b ls = ⟨e, "", some .notInitialized⟩ := by
  unfold Engine.Render
  rw [h]

/-- `Render` on a render-cache hit: the cached content is written, the
engine untouched. -/
theorem render_cacheHit (e : Engine) (reg : Registry) (ctx : Ctx) (n : String)
    (b : GoVal) (ls : List String) (c : String)
    (hreg : e.templates = some reg)
    (hhit : lookupAssoc e.cache (generateCacheKey e.hardCache (localeOf ctx) n b ls) = some c) :
    e.Render ctx n b ls = ⟨e, c, none⟩ := by
  unfold Engine.Render
  rw [hreg]
  dsimp only
  rw [hhit]

/-- `Render` when the base template name is not registered. -/
theorem render_baseMissing (e : Engine) (reg : Registry) (ctx : Ctx) (n : String)
    (b : GoVal) (ls : List String)
    (hreg : e.templates = some reg)
    (hmiss : lookupAssoc e.cache (generateCacheKey e.hardCache (localeOf ctx) n b ls) = none)
    (hname : lookupAssoc reg n = none) :
    e.Render ctx n b ls = ⟨e, "", some (.templateNotFound n)⟩ := by
  unfold Engine.Render
  rw [hreg]
  dsimp only
  rw [hmiss]
  dsimp only
  rw [hname]

/-- `Render` when the base template's execution fails. -/
theorem render_baseExecFail (e : Engine) (reg : Registry) (ctx : Ctx) (n : String)
    (b : GoVal) (ls : List String) (bt : Tmpl) (m : String)
    (hreg : e.templates = some reg)
    (hmiss : lookupAssoc e.cache (generateCacheKey e.hardCache (localeOf ctx) n b ls) = none)
    (hname : lookupAssoc reg n = some bt)
    (hexec : bt.exec (baseEnv ctx) b = .error m) :
    e.Render ctx n b ls = ⟨e, "", some (.executionFailed m)⟩ := by
  unfold Engine.Render
  rw [hreg]
  dsimp only
  rw [hmiss]
  dsimp only
  rw [hname]
  dsimp only
  rw [hexec]

/-- `Render` when a requested layout fails to resolve. -/
theorem render_layoutMissing (e : Engine) (reg : Registry) (ctx : Ctx) (n : String)
    (b : GoVal) (ls : List String) (bt : Tmpl) (s0 l : String)
    (hreg : e.templates = some reg)
    (hmiss : lookupAssoc e.cache (generateCacheKey e.hardCache (localeOf ctx) n b ls) = none)
    (hname : lookupAssoc reg n = some bt)
    (hexec : bt.exec (baseEnv ctx) b = .ok s0)
    (hchain : getLayoutChain reg e.layoutCache ls = .error l) :
    e.Render ctx n b ls = ⟨e, "", some (.layoutNotFound l)⟩ := by
  unfold Engine.Render
  rw [hreg]
  dsimp only
  rw [hmiss]
  dsimp only
  rw [hname]
  dsimp only
  rw [hexec]
  dsimp only
  rw [hchain]

/-- `Render` when a layout's execution fails: the resolved chain has been
stored in the chain cache, nothing else changed, nothing written. -/
theorem render_wrapFail (e : Engine) (reg : Registry) (ctx : Ctx) (n : String)
    (b : GoVal) (ls : List String) (bt : Tmpl) (s0 m : String)
    (chain : List Tmpl) (lc' : List (String × List Tmpl))
    (hreg : e.templates = some reg)
    (hmiss : lookupAssoc e.cache (generateCacheKey e.hardCache (localeOf ctx) n b ls) = none)
    (hname : lookupAssoc reg n = some bt)
    (hexec : bt.exec (baseEnv ctx) b = .ok s0)
    (hchain : getLayoutChain reg e.layoutCache ls = .ok (chain, lc'))
    (hwrap : wrapChain (baseEnv ctx) b chain s0 = .error m) :
    e.Render ctx n b ls = ⟨{ e with layoutCache := lc' }, "", some (.executionFailed m)⟩ := by
  unfold Engine.Render
  rw [hreg]
  dsimp only
  rw [hmiss]
  dsimp only
  rw [hname]
  dsimp only
  rw [hexec]
  dsimp only
  rw [hchain]
  dsimp only
  rw [hwrap]

/-- `Render` on a full cache-miss success: the wrapped content is stored
under the computed key and written to the sink. -/
theorem render_success (e : Engine) (reg : Registry) (ctx : Ctx) (n : String)
    (b : GoVal) (ls : List String) (bt : Tmpl) (s0 content : String)
    (chain : List Tmpl) (lc' : List (String × List Tmpl))
    (hreg : e.templates = some reg)
    (hmiss : lookupAssoc e.cache (generateCacheKey e.hardCache (localeOf ctx) n b ls) = none)
    (hname : lookupAssoc reg n = some bt)
    (hexec : bt.exec (baseEnv ctx) b = .ok s0)
    (hchain : getLayoutChain reg e.layoutCache ls = .ok (chain, lc'))
    (hwrap : wrapChain (baseEnv ctx) b chain s0 = .ok content) :
    e.Render ctx n b ls =
      ⟨{ e with
          layoutCache := lc'
          cache := storeAssoc e.cache
            (generateCacheKey e.hardCache (localeOf ctx) n b ls) content },
        content, none⟩ := by
  unfold Engine.Render
  rw [hreg]
  dsimp only
  rw [hmiss]
  dsimp only
  rw [hname]
  dsimp only
  rw [hexec]
  dsimp only
  rw [hchain]
  dsimp only
  rw [hwrap]

/-- C7: calling `Render` through a nil engine handle, or on an engine with
no parsed template registry, returns the dedicated not-initialized error
with zero bytes written and the engine untouched, before any cache probe,
lookup or execution step (the result is the same for every request and
every cache content). -/
theorem render_uninitialized_guard :
    (∀ (ctx : Ctx) (n : String) (b : GoVal) (ls : List String),
        renderHandle none ctx n b ls = ("", some RenderErr.notInitialized))
    ∧ (∀ (e : Engine) (ctx : Ctx) (n : String) (b : GoVal) (ls : List String),
        e.templates = none →
        e.Render ctx n b ls = ⟨e, "", some RenderErr.notInitialized⟩) :=
  ⟨fun _ _ _ _ => rfl, fun e ctx n b ls h => render_notInit e ctx n b ls h⟩

theorem render_uninitialized_guard_witness :
    renderHandle none ctx0 "t" GoVal.nil [] = ("", some RenderErr.notInitialized)
    ∧ Engine.Render ⟨none, false, [("k", "v")], []⟩ ctx0 "t" GoVal.nil []
        = ⟨⟨none, false, [("k", "v")], []⟩, "", some RenderErr.notInitialized⟩ :=
  ⟨render_uninitialized_guard.1 ctx0 "t" GoVal.nil [],
   render_uninitialized_guard.2 ⟨none, false, [("k", "v")], []⟩ ctx0 "t" GoVal.nil [] rfl⟩

/-- C6: with an empty layout list, the chain resolver returns the empty
chain (leaving the chain cache as it is) and, on a render-cache miss,
`Render` writes exactly the base template's direct execution output. -/
theorem render_empty_layouts (e : Engine) (reg : Registry) (ctx : Ctx) (n : String)
    (b : GoVal) (bt : Tmpl) (s0 : String)
    (hreg : e.templates = some reg)
    (hmiss : lookupAssoc e.cache (generateCacheKey e.hardCache (localeOf ctx) n b []) = none)
    (hname : lookupAssoc reg n = some bt)
    (hexec : bt.exec (baseEnv ctx) b = .ok s0) :
    getLayoutChain reg e.layoutCache [] = .ok ([], e.layoutCache)
    ∧ (e.Render ctx n b []).out = s0
    ∧ (e.Render ctx n b []).err = none := by
  refine ⟨rfl, ?_, ?_⟩ <;>
    rw [render_success e reg ctx n b [] bt s0 s0 [] e.layoutCache hreg hmiss hname hexec rfl rfl]

theorem render_empty_layouts_witness :
    getLayoutChain regW engW.layoutCache [] = .ok ([], engW.layoutCache)
    ∧ (engW.Render ctx0 "t" GoVal.nil []).out = "X"
    ∧ (engW.Render ctx0 "t" GoVal.nil []).err = none :=
  render_empty_layouts engW regW ctx0 "t" GoVal.nil (okTmpl "X") "X" rfl rfl rfl rfl

/-- C5: on a cache miss, a two-layout chain renders strictly sequentially:
the first layout executes with `embed` bound to the base output, the
second with `embed` bound to the first layout's output, and `Render`
writes the second layout's output. -/
theorem render_sequential_wrap (e : Engine) (reg : Registry) (ctx : Ctx)
    (n l1 l2 : String) (b : GoVal) (bt t1 t2 : Tmpl) (s0 s1 s2 : String)
    (hreg : e.templates = some reg)
    (hmiss : lookupAssoc e.cache
      (generateCacheKey e.hardCache (localeOf ctx) n b [l1, l2]) = none)
    (hcmiss : lookupAssoc e.layoutCache (String.intercalate ":" [l1, l2]) = none)
    (hname : lookupAssoc reg n = some bt)
    (hl1 : lookupAssoc reg l1 = some t1)
    (hl2 : lookupAssoc reg l2 = some t2)
    (hexec : bt.exec (baseEnv ctx) b = .ok s0)
    (hw1 : t1.exec { baseEnv ctx with embed := s0 } b = .ok s1)
    (hw2 : t2.exec { baseEnv ctx with embed := s1 } b = .ok s2) :
    (e.Render ctx n b [l1, l2]).out = s2 ∧ (e.Render ctx n b [l1, l2]).err = none := by
  have hres : resolveChain reg [l1, l2] = .ok [t1, t2] := by
    simp [resolveChain, hl1, hl2]
  have hchain : getLayoutChain reg e.layoutCache [l1, l2]
      = .ok ([t1, t2], storeAssoc e.layoutCache (String.intercalate ":" [l1, l2]) [t1, t2]) := by
    unfold getLayoutChain
    dsimp only [List.isEmpty]
    rw [hcmiss]
    dsimp only
    rw [hres]
    rfl
  have hwrap : wrapChain (baseEnv ctx) b [t1, t2] s0 = .ok s2 := by
    simp [wrapChain, hw1, hw2]
  constructor <;>
    rw [render_success e reg ctx n b [l1, l2] bt s0 s2 [t1, t2] _ hreg hmiss hname hexec
      hchain hwrap]

theorem render_sequential_wrap_witness :
    (engW.Render ctx0 "t" GoVal.nil ["lay", "lay2"]).out = "(<X>)"
    ∧ (engW.Render ctx0 "t" GoVal.nil ["lay", "lay2"]).err = none :=
  render_sequential_wrap engW regW ctx0 "t" "lay" "lay2" GoVal.nil
    (okTmpl "X") (embedTmpl "<" ">") (embedTmpl "(" ")") "X" "<X>" "(<X>)"
    rfl rfl rfl rfl rfl rfl rfl rfl rfl

/-- C4: a `Render` call whose base template name is unregistered, or whose
layout list names an unregistered layout (even though the base template
executed successfully into its internal buffer), returns a not-found error
identifying the missing name and writes zero bytes to the output sink. -/
theorem render_failure_writes_nothing :
    (∀ (e : Engine) (reg : Registry) (ctx : Ctx) (n : String) (b : GoVal) (ls : List String),
        e.templates = some reg →
        lookupAssoc e.cache (generateCacheKey e.hardCache (localeOf ctx) n b ls) = none →
        lookupAssoc reg n = none →
        (e.Render ctx n b ls).out = ""
        ∧ (e.Render ctx n b ls).err = some (RenderErr.templateNotFound n))
    ∧ (∀ (e : Engine) (reg : Registry) (ctx : Ctx) (n : String) (b : GoVal) (ls : List String)
        (bt : Tmpl) (s0 l : String),
        e.templates = some reg →
        lookupAssoc e.cache (generateCacheKey e.hardCache (localeOf ctx) n b ls) = none →
        lookupAssoc reg n = some bt →
        bt.exec (baseEnv ctx) b = .ok s0 →
        lookupAssoc e.layoutCache (String.intercalate ":" ls) = none →
        resolveChain reg ls = .error l →
        (e.Render ctx n b ls).out = ""
        ∧ (e.Render ctx n b ls).err = some (RenderErr.layoutNotFound l)) := by
  constructor
  · intro e reg ctx n b ls hreg hmiss hname
    constructor <;> rw [render_baseMissing e reg ctx n b ls hreg hmiss hname]
  · intro e reg ctx n b ls bt s0 l hreg hmiss hname hexec hcmiss hres
    have hne : ls.isEmpty = false := by
      cases ls with
      | nil => simp [resolveChain] at hres
      | cons a as => rfl
    have hchain : getLayoutChain reg e.layoutCache ls = .error l := by
      unfold getLayoutChain
      rw [hne]
      dsimp only
      rw [hcmiss]
      dsimp only
      rw [hres]
      rfl
    constructor <;> rw [render_layoutMissing e reg ctx n b ls bt s0 l hreg hmiss hname hexec hchain]

theorem render_failure_writes_nothing_witness :
    ((engW.Render ctx0 "nope" GoVal.nil []).out = ""
      ∧ (engW.Render ctx0 "nope" GoVal.nil []).err = some (RenderErr.templateNotFound "nope"))
    ∧ ((engW.Render ctx0 "t" GoVal.nil ["missing"]).out = ""
      ∧ (engW.Render ctx0 "t" GoVal.nil ["missing"]).err
          = some (RenderErr.layoutNotFound "missing")) :=
  ⟨render_failure_writes_nothing.1 engW regW ctx0 "nope" GoVal.nil [] rfl rfl rfl,
   render_failure_writes_nothing.2 engW regW ctx0 "t" GoVal.nil ["missing"]
     (okTmpl "X") "X" "missing" rfl rfl rfl rfl rfl rfl⟩

/-- C10: during base-template execution only `T` and `ctxVal` are
overridden, so the `embed` function a content template sees is the
parse-time `defaultFuncs` placeholder returning the empty string; a
content template invoking `embed` renders successfully with empty embedded
content. -/
theorem base_embed_placeholder_empty (e : Engine) (reg : Registry) (ctx : Ctx)
    (n pre post : String) (b : GoVal)
    (hreg : e.templates = some reg)
    (hmiss : lookupAssoc e.cache (generateCacheKey e.hardCache (localeOf ctx) n b []) = none)
    (hname : lookupAssoc reg n = some (embedTmpl pre post)) :
    (baseEnv ctx).embed = defaultFuncs.embed
    ∧ defaultFuncs.embed = ""
    ∧ (e.Render ctx n b []).err = none
    ∧ (e.Render ctx n b []).out = pre ++ post := by
  have hexec : (embedTmpl pre post).exec (baseEnv ctx) b = .ok (pre ++ post) := by
    show Except.ok (pre ++ "" ++ post) = Except.ok (pre ++ post)
    rw [String.append_empty]
  refine ⟨rfl, rfl, ?_, ?_⟩ <;>
    rw [render_success e reg ctx n b [] (embedTmpl pre post) (pre ++ post) (pre ++ post) []
      e.layoutCache hreg hmiss hname hexec rfl rfl]

theorem base_embed_placeholder_empty_witness :
    (baseEnv ctx0).embed = defaultFuncs.embed
    ∧ defaultFuncs.embed = ""
    ∧ (engW.Render ctx0 "emb" GoVal.nil []).err = none
    ∧ (engW.Render ctx0 "emb" GoVal.nil []).out = "[" ++ "]" :=
  base_embed_placeholder_empty engW regW ctx0 "emb" "[" "]" GoVal.nil rfl rfl rfl

/-- C9: render-cache key construction is total over every binding shape —
the quantification ranges over all of `GoVal`'s shape categories,
including the generic stringified fallback — and never prevents a render
from completing: with any binding whatsoever, `Render` succeeds and the
produced content is stored under the computed key. -/
theorem cache_key_total_renders_complete (b : GoVal) (e : Engine) (reg : Registry)
    (ctx : Ctx) (n s : String)
    (hreg : e.templates = some reg)
    (hcache : e.cache = [])
    (hname : lookupAssoc reg n = some (okTmpl s)) :
    (e.Render ctx n b []).err = none
    ∧ (e.Render ctx n b []).out = s
    ∧ lookupAssoc (e.Render ctx n b []).eng.cache
        (generateCacheKey e.hardCache (localeOf ctx) n b []) = some s := by
  have hmiss : lookupAssoc e.cache (generateCacheKey e.hardCache (localeOf ctx) n b []) = none := by
    rw [hcache]
    rfl
  rw [render_success e reg ctx n b [] (okTmpl s) s s [] e.layoutCache hreg hmiss hname rfl rfl rfl]
  exact ⟨rfl, rfl, lookupAssoc_store_self _ _ _⟩

theorem cache_key_total_renders_complete_witness :
    (engW.Render ctx0 "t" (GoVal.structured [1, 2, 300]) []).err = none
    ∧ (engW.Render ctx0 "t" (GoVal.structured [1, 2, 300]) []).out = "X"
    ∧ lookupAssoc (engW.Render ctx0 "t" (GoVal.structured [1, 2, 300]) []).eng.cache
        (generateCacheKey engW.hardCache (localeOf ctx0) "t" (GoVal.structured [1, 2, 300]) [])
        = some "X" :=
  cache_key_total_renders_complete (GoVal.structured [1, 2, 300]) engW regW ctx0 "t" "X"
    rfl rfl rfl

/-- In hard-cache mode the key is built from locale, name and layouts
only; the binding argument is ignored. -/
theorem generateCacheKey_hard_ignores_binding (locale n : String) (A B : GoVal)
    (ls : List String) :
    generateCacheKey true locale n A ls = generateCacheKey true locale n B ls := by
  simp only [generateCacheKey, if_true]

/-- After a `Render` call that returns no error, the produced output is
retrievable from the render cache under the call's key, and the registry
and hard-cache flag are untouched. -/
theorem render_success_cached (e : Engine) (ctx : Ctx) (n : String) (b : GoVal)
    (ls : List String)
    (h : (e.Render ctx n b ls).err = none) :
    lookupAssoc (e.Render ctx n b ls).eng.cache
        (generateCacheKey e.hardCache (localeOf ctx) n b ls) = some (e.Render ctx n b ls).out
    ∧ (e.Render ctx n b ls).eng.templates = e.templates
    ∧ (e.Render ctx n b ls).eng.hardCache = e.hardCache := by
  cases hreg : e.templates with
  | none =>
      rw [render_notInit e ctx n b ls hreg] at h
      simp at h
  | some reg =>
      cases hprobe : lookupAssoc e.cache (generateCacheKey e.hardCache (localeOf ctx) n b ls) with
      | some c =>
          rw [render_cacheHit e reg ctx n b ls c hreg hprobe]
          exact ⟨hprobe, hreg, rfl⟩
      | none =>
          cases hname : lookupAssoc reg n with
          | none =>
              rw [render_baseMissing e reg ctx n b ls hreg hprobe hname] at h
              simp at h
          | some bt =>
              cases hexec : bt.exec (baseEnv ctx) b with
              | error m =>
                  rw [render_baseExecFail e reg ctx n b ls bt m hreg hprobe hname hexec] at h
                  simp at h
              | ok s0 =>
                  cases hchain : getLayoutChain reg e.layoutCache ls with
                  | error l =>
                      rw [render_layoutMissing e reg ctx n b ls bt s0 l hreg hprobe hname hexec
                        hchain] at h
                      simp at h
                  | ok p =>
                      obtain ⟨chain, lc'⟩ := p
                      cases hwrap : wrapChain (baseEnv ctx) b chain s0 with
                      | error m =>
                          rw [render_wrapFail e reg ctx n b ls bt s0 m chain lc' hreg hprobe
                            hname hexec hchain hwrap] at h
                          simp at h
                      | ok content =>
                          rw [render_success e reg ctx n b ls bt s0 content chain lc' hreg hprobe
                            hname hexec hchain hwrap]
                          exact ⟨lookupAssoc_store_self _ _ _, hreg, rfl⟩

/-- C2: render idempotence.  Soft-cache mode: two sequential calls with
identical locale, name, layouts and binding return byte-identical output.
Hard-cache mode: two sequential calls with identical locale, name and
layouts but different bindings also return byte-identical output, because
the hard-cache key omits the binding. -/
theorem render_idempotent :
    (∀ (e : Engine) (ctx : Ctx) (n : String) (b : GoVal) (ls : List String),
        e.hardCache = false →
        (e.Render ctx n b ls).err = none →
        ((e.Render ctx n b ls).eng.Render ctx n b ls).out = (e.Render ctx n b ls).out)
    ∧ (∀ (e : Engine) (ctx : Ctx) (n : String) (A B : GoVal) (ls : List String),
        e.hardCache = true →
        (e.Render ctx n A ls).err = none →
        ((e.Render ctx n A ls).eng.Render ctx n B ls).out = (e.Render ctx n A ls).out) := by
  constructor
  · intro e ctx n b ls _ h
    obtain ⟨hlk, htm, hhc⟩ := render_success_cached e ctx n b ls h
    cases hreg : e.templates with
    | none => rw [render_notInit e ctx n b ls hreg] at h; simp at h
    | some reg =>
        have hreg2 : (e.Render ctx n b ls).eng.templates = some reg := htm.trans hreg
        have hhit : lookupAssoc (e.Render ctx n b ls).eng.cache
            (generateCacheKey (e.Render ctx n b ls).eng.hardCache (localeOf ctx) n b ls)
            = some (e.Render ctx n b ls).out := by
          rw [hhc]
          exact hlk
        rw [render_cacheHit (e.Render ctx n b ls).eng reg ctx n b ls
          (e.Render ctx n b ls).out hreg2 hhit]
  · intro e ctx n A B ls hhard h
    obtain ⟨hlk, htm, hhc⟩ := render_success_cached e ctx n A ls h
    cases hreg : e.templates with
    | none => rw [render_notInit e ctx n A ls hreg] at h; simp at h
    | some reg =>
        have hreg2 : (e.Render ctx n A ls).eng.templates = some reg := htm.trans hreg
        have hhit : lookupAssoc (e.Render ctx n A ls).eng.cache
            (generateCacheKey (e.Render ctx n A ls).eng.hardCache (localeOf ctx) n B ls)
            = some (e.Render ctx n A ls).out := by
          rw [hhc, hhard, generateCacheKey_hard_ignores_binding (localeOf ctx) n B A ls,
            ← hhard]
          exact hlk
        rw [render_cacheHit (e.Render ctx n A ls).eng reg ctx n B ls
          (e.Render ctx n A ls).out hreg2 hhit]

theorem render_idempotent_witness :
    (engW.hardCache = false
      ∧ (engW.Render ctx0 "t" GoVal.nil []).err = none
      ∧ ((engW.Render ctx0 "t" GoVal.nil []).eng.Render ctx0 "t" GoVal.nil []).out
          = (engW.Render ctx0 "t" GoVal.nil []).out)
    ∧ (engHard.hardCache = true
      ∧ (engHard.Render ctx0 "bt" (GoVal.str "a") []).err = none
      ∧ ((engHard.Render ctx0 "bt" (GoVal.str "a") []).eng.Render ctx0 "bt"
            (GoVal.str "b") []).out
          = (engHard.Render ctx0 "bt" (GoVal.str "a") []).out) :=
  ⟨⟨rfl, rfl, render_idempotent.1 engW ctx0 "t" GoVal.nil [] rfl rfl⟩,
   ⟨rfl, rfl, render_idempotent.2 engHard ctx0 "bt" (GoVal.str "a") (GoVal.str "b") [] rfl rfl⟩⟩

/-- C1: soft-cache correctness.  In default (soft-cache) mode, after
rendering with binding `A`, rendering the same template, layouts and
locale with a different binding `B` whose render-cache key differs from
`A`'s (as it does for the concrete inputs exhibited in the witness) does
not return `A`'s cached output: the second call writes and reports exactly
what a render of `B` against the original engine produces. -/
theorem soft_cache_no_stale_output (e : Engine) (ctx : Ctx) (n : String) (A B : GoVal)
    (ls : List String)
    (hsoft : e.hardCache = false)
    (hkeys : generateCacheKey false (localeOf ctx) n A ls
      ≠ generateCacheKey false (localeOf ctx) n B ls)
    (hBfresh : lookupAssoc e.cache (generateCacheKey false (localeOf ctx) n B ls) = none)
    (hA : (e.Render ctx n A ls).err = none) :
    ((e.Render ctx n A ls).eng.Render ctx n B ls).out = (e.Render ctx n B ls).out
    ∧ ((e.Render ctx n A ls).eng.Render ctx n B ls).err = (e.Render ctx n B ls).err := by
  rw [← hsoft] at hkeys hBfresh
  cases hreg : e.templates with
  | none => rw [render_notInit e ctx n A ls hreg] at hA; simp at hA
  | some reg =>
    cases hprobeA : lookupAssoc e.cache (generateCacheKey e.hardCache (localeOf ctx) n A ls) with
    | some c =>
        rw [render_cacheHit e reg ctx n A ls c hreg hprobeA]
        exact ⟨rfl, rfl⟩
    | none =>
      cases hname : lookupAssoc reg n with
      | none => rw [render_baseMissing e reg ctx n A ls hreg hprobeA hname] at hA; simp at hA
      | some bt =>
        cases hexecA : bt.exec (baseEnv ctx) A with
        | error m =>
            rw [render_baseExecFail e reg ctx n A ls bt m hreg hprobeA hname hexecA] at hA
            simp at hA
        | ok sA =>
          cases hchainA : getLayoutChain reg e.layoutCache ls with
          | error l =>
              rw [render_layoutMissing e reg ctx n A ls bt sA l hreg hprobeA hname hexecA
                hchainA] at hA
              simp at hA
          | ok p =>
            obtain ⟨chain, lc'⟩ := p
            cases hwrapA : wrapChain (baseEnv ctx) A chain sA with
            | error m =>
                rw [render_wrapFail e reg ctx n A ls bt sA m chain lc' hreg hprobeA hname
                  hexecA hchainA hwrapA] at hA
                simp at hA
            | ok cA =>
              rw [render_success e reg ctx n A ls bt sA cA chain lc' hreg hprobeA hname
                hexecA hchainA hwrapA]
              dsimp only
              have hchain2 : getLayoutChain reg lc' ls = .ok (chain, lc') :=
                getLayoutChain_idem reg e.layoutCache lc' ls chain hchainA
              cases hexecB : bt.exec (baseEnv ctx) B with
              | error m =>
                  rw [render_baseExecFail
                    ⟨e.templates, e.hardCache,
                      storeAssoc e.cache (generateCacheKey e.hardCache (localeOf ctx) n A ls) cA,
                      lc'⟩
                    reg ctx n B ls bt m hreg
                    (by rw [lookupAssoc_store_ne _ _ _ _ hkeys]; exact hBfresh) hname hexecB,
                    render_baseExecFail e reg ctx n B ls bt m hreg hBfresh hname hexecB]
                  exact ⟨rfl, rfl⟩
              | ok sB =>
                cases hwrapB : wrapChain (baseEnv ctx) B chain sB with
                | error m =>
                    rw [render_wrapFail
                      ⟨e.templates, e.hardCache,
                        storeAssoc e.cache (generateCacheKey e.hardCache (localeOf ctx) n A ls) cA,
                        lc'⟩
                      reg ctx n B ls bt sB m chain lc' hreg
                      (by rw [lookupAssoc_store_ne _ _ _ _ hkeys]; exact hBfresh)
                      hname hexecB hchain2 hwrapB,
                      render_wrapFail e reg ctx n B ls bt sB m chain lc' hreg hBfresh hname
                        hexecB hchainA hwrapB]
                    exact ⟨rfl, rfl⟩
                | ok cB =>
                    rw [render_success
                      ⟨e.templates, e.hardCache,
                        storeAssoc e.cache (generateCacheKey e.hardCache (localeOf ctx) n A ls) cA,
                        lc'⟩
                      reg ctx n B ls bt sB cB chain lc' hreg
                      (by rw [lookupAssoc_store_ne _ _ _ _ hkeys]; exact hBfresh)
                      hname hexecB hchain2 hwrapB,
                      render_success e reg ctx n B ls bt sB cB chain lc' hreg hBfresh hname
                        hexecB hchainA hwrapB]
                    exact ⟨rfl, rfl⟩

theorem soft_cache_no_stale_output_witness :
    engW.hardCache = false
    ∧ generateCacheKey false (localeOf ctx0) "bt" (GoVal.str "a") []
        ≠ generateCacheKey false (localeOf ctx0) "bt" (GoVal.str "b") []
    ∧ ((engW.Render ctx0 "bt" (GoVal.str "a") []).eng.Render ctx0 "bt" (GoVal.str "b") []).out
        = (engW.Render ctx0 "bt" (GoVal.str "b") []).out
    ∧ ((engW.Render ctx0 "bt" (GoVal.str "a") []).eng.Render ctx0 "bt" (GoVal.str "b") []).err
        = (engW.Render ctx0 "bt" (GoVal.str "b") []).err := by
  have hkeys : generateCacheKey false (localeOf ctx0) "bt" (GoVal.str "a") []
      ≠ generateCacheKey false (localeOf ctx0) "bt" (GoVal.str "b") [] := by decide
  have h := soft_cache_no_stale_output engW ctx0 "bt" (GoVal.str "a") (GoVal.str "b") []
    rfl hkeys rfl rfl
  exact ⟨rfl, hkeys, h.1, h.2⟩

/-- C3 counterexample: a `Render` call that returns an error can modify
the layout-chain cache.  With a registered base template and a registered
layout whose execution fails, the call returns an execution error, yet the
fully resolved chain has been stored in the layout-chain cache. -/
theorem render_error_layout_cache_modified :
    (engFailLayout.Render ctx0 "base" GoVal.nil ["lay"]).err
        = some (RenderErr.executionFailed "boom")
    ∧ (engFailLayout.Render ctx0 "base" GoVal.nil ["lay"]).eng.layoutCache
        ≠ engFailLayout.layoutCache := by
  refine ⟨rfl, ?_⟩
  intro hcontra
  have h1 : (engFailLayout.Render ctx0 "base" GoVal.nil ["lay"]).eng.layoutCache
      = [("lay", [failTmpl "boom"])] := rfl
  have h2 : engFailLayout.layoutCache = [] := rfl
  rw [h1, h2] at hcontra
  exact List.cons_ne_nil _ _ hcontra

/-- C3 (amended): error atomicity of the caches.  A `Render` call that
returns an error never modifies the render cache, and the layout-chain
cache is either left unmodified or (only when a fully resolved chain was
stored before a layout execution failed) equals the result of a successful
full chain resolution — a partial chain or partial output is never
stored. -/
theorem render_error_cache_atomicity (e : Engine) (ctx : Ctx) (n : String) (b : GoVal)
    (ls : List String) (er : RenderErr)
    (h : (e.Render ctx n b ls).err = some er) :
    (e.Render ctx n b ls).eng.cache = e.cache
    ∧ ((e.Render ctx n b ls).eng.layoutCache = e.layoutCache
       ∨ ∃ (reg : Registry) (chain : List Tmpl),
           e.templates = some reg
           ∧ getLayoutChain reg e.layoutCache ls
               = .ok (chain, (e.Render ctx n b ls).eng.layoutCache)) := by
  cases hreg : e.templates with
  | none =>
      rw [render_notInit e ctx n b ls hreg]
      exact ⟨rfl, .inl rfl⟩
  | some reg =>
    cases hprobe : lookupAssoc e.cache (generateCacheKey e.hardCache (localeOf ctx) n b ls) with
    | some c =>
        rw [render_cacheHit e reg ctx n b ls c hreg hprobe] at h
        simp at h
    | none =>
      cases hname : lookupAssoc reg n with
      | none =>
          rw [render_baseMissing e reg ctx n b ls hreg hprobe hname]
          exact ⟨rfl, .inl rfl⟩
      | some bt =>
        cases hexec : bt.exec (baseEnv ctx) b with
        | error m =>
            rw [render_baseExecFail e reg ctx n b ls bt m hreg hprobe hname hexec]
            exact ⟨rfl, .inl rfl⟩
        | ok s0 =>
          cases hchain : getLayoutChain reg e.layoutCache ls with
          | error l =>
              rw [render_layoutMissing e reg ctx n b ls bt s0 l hreg hprobe hname hexec hchain]
              exact ⟨rfl, .inl rfl⟩
          | ok p =>
            obtain ⟨chain, lc'⟩ := p
            cases hwrap : wrapChain (baseEnv ctx) b chain s0 with
            | error m =>
                rw [render_wrapFail e reg ctx n b ls bt s0 m chain lc' hreg hprobe hname
                  hexec hchain hwrap]
                exact ⟨rfl, .inr ⟨reg, chain, rfl, hchain⟩⟩
            | ok content =>
                rw [render_success e reg ctx n b ls bt s0 content chain lc' hreg hprobe hname
                  hexec hchain hwrap] at h
                simp at h

theorem render_error_cache_atomicity_witness :
    (engW.Render ctx0 "nope" GoVal.nil []).err = some (RenderErr.templateNotFound "nope")
    ∧ (engW.Render ctx0 "nope" GoVal.nil []).eng.cache = engW.cache
    ∧ ((engW.Render ctx0 "nope" GoVal.nil []).eng.layoutCache = engW.layoutCache
       ∨ ∃ (reg : Registry) (chain : List Tmpl),
           engW.templates = some reg
           ∧ getLayoutChain reg engW.layoutCache []
               = .ok (chain, (engW.Render ctx0 "nope" GoVal.nil []).eng.layoutCache)) :=
  ⟨rfl,
    (render_error_cache_atomicity engW ctx0 "nope" GoVal.nil []
      (RenderErr.templateNotFound "nope") rfl).1,
    (render_error_cache_atomicity engW ctx0 "nope" GoVal.nil []
      (RenderErr.templateNotFound "nope") rfl).2⟩

/-- C8 (code-bug exhibit): when the directory walk registers zero
templates, `New` does not return the no-templates-parsed error: the
`Templates() == nil` guard never fires because the collaborator's
`Templates()` method never returns a nil slice (the namespace always holds
the root template that `template.New("")` registered), so `New` returns a
nominally usable engine whose registry holds only the unparsed root
template. -/
theorem new_zero_templates_parsed_succeeds :
    New "templates" true (Except.ok []) false
      = Except.ok { templates := some [("", rootTmpl)], hardCache := false,
                    cache := [], layoutCache := [] } := rfl

end Templatex
